import Mathlib

/-!
Verification of the projection and tax-adjustment engine of
`src/simulador_inteligente.py` (Simulador Inteligente de Renda Fixa).

The engine's float arithmetic is modelled over `ℝ`; the regressive
income-tax table, whose values are exact decimals, is defined over `ℚ`
and cast to `ℝ` where the engine multiplies with it.
-/

namespace Simulador

/-- `obter_aliquota_ir(dias)` from the source: the regressive income-tax
table.  `dias ≤ 180 → 0.225`, `dias ≤ 360 → 0.20`, `dias ≤ 720 → 0.175`,
otherwise `0.15`.  Total on `ℕ` by construction. -/
def obter_aliquota_ir (dias : ℕ) : ℚ :=
  if dias ≤ 180 then 0.225
  else if dias ≤ 360 then 0.20
  else if dias ≤ 720 then 0.175
  else 0.15

/-- `calcular_rentabilidade_mensal(tipo_rentabilidade, taxa, cdi_anual,
ipca_anual)` from the source.  The `CDI` branch is the literal
`(1 + cdi_anual) ** (1/12) - 1 * taxa`; the fall-through branch returns
`0`, exactly as the Python `else` does. -/
noncomputable def calcular_rentabilidade_mensal
    (tipo_rentabilidade : String) (taxa cdi_anual ipca_anual : ℝ) : ℝ :=
  if tipo_rentabilidade = "Prefixada" then
    (1 + taxa) ^ ((1 : ℝ) / 12) - 1
  else if tipo_rentabilidade = "CDI" then
    (1 + cdi_anual) ^ ((1 : ℝ) / 12) - 1 * taxa
  else if tipo_rentabilidade = "IPCA +" then
    ((1 + ipca_anual) * (1 + taxa)) ^ ((1 : ℝ) / 12) - 1
  else
    0

/-- Balance after `n` iterations of the loop body
`saldo *= (1 + rent_mensal); saldo += aporte_mensal` inside
`simular_valor_futuro`, starting from `saldo = aporte_inicial`. -/
def saldo_apos (rent_mensal aporte_mensal aporte_inicial : ℝ) : ℕ → ℝ
  | 0 => aporte_inicial
  | n + 1 =>
      saldo_apos rent_mensal aporte_mensal aporte_inicial n * (1 + rent_mensal)
        + aporte_mensal

/-- `simular_valor_futuro` from the source, returning the tuple
`(saldo, valores, rendimento_bruto, rent_mensal)`.  `valores` is the
list the loop builds: the running balance after each of months
`0, 1, ..., meses` (month 0 being the initial deposit), so it is the
image of `saldo_apos` over `0..meses`.  When `isento_ir` is false the
tax `imposto = rendimento_bruto * aliquota` is subtracted from both the
final balance and the reported gross gain, as in the source. -/
noncomputable def simular_valor_futuro (tipo_rentabilidade : String)
    (taxa : ℝ) (meses : ℕ) (aporte_inicial aporte_mensal : ℝ)
    (cdi_anual ipca_anual : ℝ) (isento_ir : Bool) : ℝ × List ℝ × ℝ × ℝ :=
  let rent_mensal :=
    calcular_rentabilidade_mensal tipo_rentabilidade taxa cdi_anual ipca_anual
  let saldo := saldo_apos rent_mensal aporte_mensal aporte_inicial meses
  let valores :=
    (List.range (meses + 1)).map (saldo_apos rent_mensal aporte_mensal aporte_inicial)
  let rendimento_bruto := saldo - (aporte_inicial + aporte_mensal * (meses : ℝ))
  if isento_ir then
    (saldo, valores, rendimento_bruto, rent_mensal)
  else
    let dias := meses * 30
    let aliquota : ℝ := (obter_aliquota_ir dias : ℚ)
    let imposto := rendimento_bruto * aliquota
    (saldo - imposto, valores, rendimento_bruto - imposto, rent_mensal)

/-- A product definition from the hardcoded `produtos` list:
`{"nome": ..., "tipo": ..., "taxa": ..., "isento_ir": ...}`. -/
structure Produto where
  nome : String
  tipo : String
  taxa : ℝ
  isento_ir : Bool

/-- The simulation loop over the product list: each product is projected
independently with the shared plan and scenario, and
`(produto["nome"], saldo_final, rendimento_bruto)` is appended to
`resultados`, preserving input order. -/
noncomputable def simular_produtos (produtos : List Produto) (meses : ℕ)
    (aporte_inicial aporte_mensal cdi_anual ipca_anual : ℝ) :
    List (String × ℝ × ℝ) :=
  produtos.map (fun p =>
    let r := simular_valor_futuro p.tipo p.taxa meses aporte_inicial
      aporte_mensal cdi_anual ipca_anual p.isento_ir
    (p.nome, r.1, r.2.2.1))

/-- Python's `max(iterable, key)` starting from a first element `a`:
scan the rest, replacing the running best only when the key is strictly
larger — hence the first occurrence of the maximum wins ties. -/
noncomputable def maxByKey {α : Type} (key : α → ℝ) (a : α) (l : List α) : α :=
  l.foldl (fun best x => if key best < key x then x else best) a

/-- `melhor = max(resultados, key=lambda x: x[1])` from the source;
`none` models Python's `ValueError` on an empty sequence. -/
noncomputable def melhor (resultados : List (String × ℝ × ℝ)) :
    Option (String × ℝ × ℝ) :=
  match resultados with
  | [] => none
  | r :: rs => some (maxByKey (fun x => x.2.1) r rs)

/-- The trajectory component of the returned tuple, in either tax branch,
is the image of `saldo_apos` over `0..meses`. -/
theorem simular_valores_eq (tipo : String) (taxa : ℝ) (meses : ℕ)
    (ai am cdi ipca : ℝ) (isento : Bool) :
    (simular_valor_futuro tipo taxa meses ai am cdi ipca isento).2.1 =
      (List.range (meses + 1)).map
        (saldo_apos (calcular_rentabilidade_mensal tipo taxa cdi ipca) am ai) := by
  unfold simular_valor_futuro
  cases isento <;> simp

/-- The rate component of the returned tuple is the resolved monthly rate. -/
theorem simular_rent_eq (tipo : String) (taxa : ℝ) (meses : ℕ)
    (ai am cdi ipca : ℝ) (isento : Bool) :
    (simular_valor_futuro tipo taxa meses ai am cdi ipca isento).2.2.2 =
      calcular_rentabilidade_mensal tipo taxa cdi ipca := by
  unfold simular_valor_futuro
  cases isento <;> simp

/-- Indexing the trajectory list: entry `i` is the balance after `i` months. -/
theorem getD_map_range (f : ℕ → ℝ) {n i : ℕ} (h : i < n) :
    ((List.range n).map f).getD i 0 = f i := by
  rw [List.getD_eq_getElem ((List.range n).map f) 0 (by simpa using h)]
  simp

/-- `C6`: the tax bracket function takes the values `0.225` at 180 days,
`0.20` at 181 and 360 days, `0.175` at 361 and 720 days, and `0.15` at
721 days; it is total on `ℕ` (its Lean type is `ℕ → ℚ`). -/
theorem obter_aliquota_ir_boundaries :
    obter_aliquota_ir 180 = 0.225 ∧ obter_aliquota_ir 181 = 0.20 ∧
    obter_aliquota_ir 360 = 0.20 ∧ obter_aliquota_ir 361 = 0.175 ∧
    obter_aliquota_ir 720 = 0.175 ∧ obter_aliquota_ir 721 = 0.15 := by
  refine ⟨?_, ?_, ?_, ?_, ?_, ?_⟩ <;> norm_num [obter_aliquota_ir]

/-- `C10`: the tax bracket function only returns one of the four rates
`0.225`, `0.20`, `0.175`, `0.15`, and it is monotone non-increasing in
the day count. -/
theorem obter_aliquota_ir_range_antitone (d d1 d2 : ℕ) (h : d1 ≤ d2) :
    (obter_aliquota_ir d = 0.225 ∨ obter_aliquota_ir d = 0.20 ∨
      obter_aliquota_ir d = 0.175 ∨ obter_aliquota_ir d = 0.15) ∧
    obter_aliquota_ir d2 ≤ obter_aliquota_ir d1 := by
  constructor
  · unfold obter_aliquota_ir
    split_ifs <;> norm_num
  · unfold obter_aliquota_ir
    split_ifs <;> first | omega | norm_num

/-- Witness for `C10` at `d = 100`, `d1 = 200 ≤ d2 = 400`. -/
theorem obter_aliquota_ir_range_antitone_holds :
    200 ≤ 400 ∧
    ((obter_aliquota_ir 100 = 0.225 ∨ obter_aliquota_ir 100 = 0.20 ∨
        obter_aliquota_ir 100 = 0.175 ∨ obter_aliquota_ir 100 = 0.15) ∧
      obter_aliquota_ir 400 ≤ obter_aliquota_ir 200) :=
  ⟨by norm_num, obter_aliquota_ir_range_antitone 100 200 400 (by norm_num)⟩

/-- `C1`: for any product, plan and scenario with `meses ≥ 1`, the
trajectory starts at the initial deposit, has length `meses + 1`, and
each later entry is the previous one compounded by the returned
effective monthly rate plus the monthly contribution. -/
theorem simular_valor_futuro_trajetoria (tipo : String) (taxa : ℝ) (meses : ℕ)
    (ai am cdi ipca : ℝ) (isento : Bool) (hm : 1 ≤ meses) :
    (simular_valor_futuro tipo taxa meses ai am cdi ipca isento).2.1.getD 0 0 = ai ∧
    (simular_valor_futuro tipo taxa meses ai am cdi ipca isento).2.1.length = meses + 1 ∧
    ∀ i, 1 ≤ i → i ≤ meses →
      (simular_valor_futuro tipo taxa meses ai am cdi ipca isento).2.1.getD i 0 =
        (simular_valor_futuro tipo taxa meses ai am cdi ipca isento).2.1.getD (i - 1) 0 *
          (1 + (simular_valor_futuro tipo taxa meses ai am cdi ipca isento).2.2.2) + am := by
  rw [simular_valores_eq, simular_rent_eq]
  refine ⟨getD_map_range _ (by omega), by simp, ?_⟩
  intro i h1 h2
  rw [getD_map_range _ (by omega), getD_map_range _ (by omega)]
  obtain ⟨j, rfl⟩ : ∃ j, i = j + 1 := ⟨i - 1, by omega⟩
  simp [saldo_apos]

/-- Witness for `C1` at `meses = 1`, prefixed product, deposit 1000,
contribution 500. -/
theorem simular_valor_futuro_trajetoria_holds :
    1 ≤ 1 ∧
    ((simular_valor_futuro "Prefixada" 0 1 1000 500 0 0 true).2.1.getD 0 0 = 1000 ∧
     (simular_valor_futuro "Prefixada" 0 1 1000 500 0 0 true).2.1.length = 1 + 1 ∧
     ∀ i, 1 ≤ i → i ≤ 1 →
       (simular_valor_futuro "Prefixada" 0 1 1000 500 0 0 true).2.1.getD i 0 =
         (simular_valor_futuro "Prefixada" 0 1 1000 500 0 0 true).2.1.getD (i - 1) 0 *
           (1 + (simular_valor_futuro "Prefixada" 0 1 1000 500 0 0 true).2.2.2) + 500) :=
  ⟨le_refl 1,
    simular_valor_futuro_trajetoria "Prefixada" 0 1 1000 500 0 0 true (le_refl 1)⟩

/-- `C2`: tax-exempt products return the last trajectory entry unchanged
as the final balance; taxed products subtract
`grossGainBeforeTax × bracket(meses * 30)` from it, and the reported
gross gain in the taxed branch is `grossGainBeforeTax` minus that tax. -/
theorem simular_valor_futuro_saldo_final (tipo : String) (taxa : ℝ) (meses : ℕ)
    (ai am cdi ipca : ℝ) :
    (simular_valor_futuro tipo taxa meses ai am cdi ipca true).1 =
      (simular_valor_futuro tipo taxa meses ai am cdi ipca true).2.1.getD meses 0 ∧
    (simular_valor_futuro tipo taxa meses ai am cdi ipca false).1 =
      (simular_valor_futuro tipo taxa meses ai am cdi ipca false).2.1.getD meses 0 -
        ((simular_valor_futuro tipo taxa meses ai am cdi ipca false).2.1.getD meses 0 -
            (ai + am * (meses : ℝ))) * (obter_aliquota_ir (meses * 30) : ℝ) ∧
    (simular_valor_futuro tipo taxa meses ai am cdi ipca false).2.2.1 =
      ((simular_valor_futuro tipo taxa meses ai am cdi ipca false).2.1.getD meses 0 -
          (ai + am * (meses : ℝ))) -
        ((simular_valor_futuro tipo taxa meses ai am cdi ipca false).2.1.getD meses 0 -
            (ai + am * (meses : ℝ))) * (obter_aliquota_ir (meses * 30) : ℝ) := by
  have hget : ∀ isento : Bool,
      (simular_valor_futuro tipo taxa meses ai am cdi ipca isento).2.1.getD meses 0 =
        saldo_apos (calcular_rentabilidade_mensal tipo taxa cdi ipca) am ai meses := by
    intro isento
    rw [simular_valores_eq]
    exact getD_map_range _ (by omega)
  refine ⟨?_, ?_, ?_⟩ <;>
    simp only [hget] <;> unfold simular_valor_futuro <;> simp

/-- `C3`: the CDI branch computes
`(1 + cdi_anual) ** (1/12) - 1 * taxa`, which by ordinary operator
precedence is `((1 + cdi_anual) ^ (1/12)) - taxa`: the rate parameter
itself is subtracted from the monthly-converted full CDI. -/
theorem calcular_rentabilidade_mensal_cdi (taxa cdi ipca : ℝ) :
    calcular_rentabilidade_mensal "CDI" taxa cdi ipca =
      (1 + cdi) ^ ((1 : ℝ) / 12) - taxa := by
  simp [calcular_rentabilidade_mensal]

/-- `C7`: the prefixed branch returns `(1 + taxa)^(1/12) - 1` regardless
of the scenario's CDI and IPCA, and the IPCA branch returns
`((1 + ipca) * (1 + taxa))^(1/12) - 1`. -/
theorem calcular_rentabilidade_mensal_prefixada_ipca
    (taxa cdi ipca cdi2 ipca2 : ℝ) (h : 0 ≤ taxa) :
    calcular_rentabilidade_mensal "Prefixada" taxa cdi ipca =
        (1 + taxa) ^ ((1 : ℝ) / 12) - 1 ∧
    calcular_rentabilidade_mensal "Prefixada" taxa cdi ipca =
        calcular_rentabilidade_mensal "Prefixada" taxa cdi2 ipca2 ∧
    calcular_rentabilidade_mensal "IPCA +" taxa cdi ipca =
        ((1 + ipca) * (1 + taxa)) ^ ((1 : ℝ) / 12) - 1 := by
  refine ⟨?_, ?_, ?_⟩ <;> simp [calcular_rentabilidade_mensal]

/-- Witness for `C7` at `taxa = 0` and scenarios `(1, 2)` versus `(3, 4)`. -/
theorem calcular_rentabilidade_mensal_prefixada_ipca_holds :
    (0 : ℝ) ≤ 0 ∧
    (calcular_rentabilidade_mensal "Prefixada" 0 1 2 =
        (1 + 0 : ℝ) ^ ((1 : ℝ) / 12) - 1 ∧
      calcular_rentabilidade_mensal "Prefixada" 0 1 2 =
        calcular_rentabilidade_mensal "Prefixada" 0 3 4 ∧
      calcular_rentabilidade_mensal "IPCA +" 0 1 2 =
        ((1 + 2) * (1 + 0) : ℝ) ^ ((1 : ℝ) / 12) - 1) :=
  ⟨le_refl 0, calcular_rentabilidade_mensal_prefixada_ipca 0 1 2 3 4 (le_refl 0)⟩

/-- `C4` counterexample: at `meses = 0` (with the default product and
scenario numbers) the simulation returns normally, and its trajectory is
the single-element list `[1000]` — no `InvalidContributionPlan` error
exists anywhere in the engine. -/
theorem simular_valor_futuro_meses_zero_unitario :
    (simular_valor_futuro "Prefixada" 0.1175 0 1000 500 0.1375 0.045 false).2.1 =
      [1000] := by
  simp [simular_valor_futuro, List.range_succ, saldo_apos]

/-- `C4` amended: calling the projection with `meses = 0` does not fail;
it returns the single-element trajectory `[aporte_inicial]`. -/
theorem simular_valor_futuro_meses_zero (tipo : String) (taxa ai am cdi ipca : ℝ)
    (isento : Bool) :
    (simular_valor_futuro tipo taxa 0 ai am cdi ipca isento).2.1 = [ai] := by
  cases isento <;> simp [simular_valor_futuro, List.range_succ, saldo_apos]

/-- `C5` counterexample: an indexer kind outside
`{Prefixada, CDI, IPCA +}` does not produce an error: the resolver
returns the value `0`. -/
theorem calcular_rentabilidade_mensal_desconhecida_zero :
    calcular_rentabilidade_mensal "Tesouro Direto" 0.1 0.1375 0.045 = 0 := by
  simp [calcular_rentabilidade_mensal]

/-- `C5` amended: for every indexer kind outside the closed enumeration
`{Prefixada, CDI, IPCA +}` the resolver silently falls back to the
monthly rate `0` instead of failing. -/
theorem calcular_rentabilidade_mensal_desconhecida (tipo : String)
    (taxa cdi ipca : ℝ) (h1 : tipo ≠ "Prefixada") (h2 : tipo ≠ "CDI")
    (h3 : tipo ≠ "IPCA +") :
    calcular_rentabilidade_mensal tipo taxa cdi ipca = 0 := by
  simp [calcular_rentabilidade_mensal, h1, h2, h3]

/-- Witness for the amended `C5` at the kind `"Poupança"`. -/
theorem calcular_rentabilidade_mensal_desconhecida_holds :
    ("Poupança" ≠ "Prefixada" ∧ "Poupança" ≠ "CDI" ∧ "Poupança" ≠ "IPCA +") ∧
    calcular_rentabilidade_mensal "Poupança" 1 2 3 = 0 :=
  ⟨⟨by decide, by decide, by decide⟩,
    calcular_rentabilidade_mensal_desconhecida "Poupança" 1 2 3
      (by decide) (by decide) (by decide)⟩

/-- The running balance stays non-negative when the rate, the
contribution and the initial deposit are non-negative. -/
theorem saldo_apos_nonneg (r c s : ℝ) (hr : 0 ≤ r) (hc : 0 ≤ c) (hs : 0 ≤ s)
    (n : ℕ) : 0 ≤ saldo_apos r c s n := by
  induction n with
  | zero => exact hs
  | succ n ih =>
      have h1 : (0 : ℝ) ≤ saldo_apos r c s n * (1 + r) :=
        mul_nonneg ih (by linarith)
      simp only [saldo_apos]
      linarith

/-- `C8`: when the initial deposit, the monthly contribution and the
resolved monthly rate are all non-negative, the trajectory is
non-decreasing. -/
theorem simular_valor_futuro_monotona (tipo : String) (taxa : ℝ) (meses : ℕ)
    (ai am cdi ipca : ℝ) (isento : Bool) (hai : 0 ≤ ai) (ham : 0 ≤ am)
    (hr : 0 ≤ calcular_rentabilidade_mensal tipo taxa cdi ipca) :
    ∀ i, 1 ≤ i → i ≤ meses →
      (simular_valor_futuro tipo taxa meses ai am cdi ipca isento).2.1.getD (i - 1) 0 ≤
      (simular_valor_futuro tipo taxa meses ai am cdi ipca isento).2.1.getD i 0 := by
  intro i h1 h2
  rw [simular_valores_eq, getD_map_range _ (by omega), getD_map_range _ (by omega)]
  obtain ⟨j, rfl⟩ : ∃ j, i = j + 1 := ⟨i - 1, by omega⟩
  simp only [Nat.add_sub_cancel, saldo_apos]
  have hs : 0 ≤ saldo_apos (calcular_rentabilidade_mensal tipo taxa cdi ipca) am ai j :=
    saldo_apos_nonneg _ _ _ hr ham hai j
  nlinarith [mul_nonneg hs hr]

/-- Witness for `C8`: deposit 1000, contribution 500, prefixed rate 0,
horizon 2 months. -/
theorem simular_valor_futuro_monotona_holds :
    (0 : ℝ) ≤ 1000 ∧ (0 : ℝ) ≤ 500 ∧
    0 ≤ calcular_rentabilidade_mensal "Prefixada" 0 0 0 ∧
    ∀ i, 1 ≤ i → i ≤ 2 →
      (simular_valor_futuro "Prefixada" 0 2 1000 500 0 0 true).2.1.getD (i - 1) 0 ≤
      (simular_valor_futuro "Prefixada" 0 2 1000 500 0 0 true).2.1.getD i 0 := by
  have hr : 0 ≤ calcular_rentabilidade_mensal "Prefixada" 0 0 0 := by
    norm_num [calcular_rentabilidade_mensal, Real.one_rpow]
  exact ⟨by norm_num, by norm_num, hr,
    simular_valor_futuro_monotona "Prefixada" 0 2 1000 500 0 0 true
      (by norm_num) (by norm_num) hr⟩

/-- Characterisation of Python's first-maximum scan: the result sits at an
index of `a :: l` whose key dominates every entry and strictly dominates
every earlier entry. -/
theorem maxByKey_spec {α : Type} (key : α → ℝ) (d a : α) (l : List α) :
    ∃ i, i < (a :: l).length ∧ maxByKey key a l = (a :: l).getD i d ∧
      (∀ j, j < (a :: l).length →
        key ((a :: l).getD j d) ≤ key ((a :: l).getD i d)) ∧
      (∀ j, j < i → key ((a :: l).getD j d) < key ((a :: l).getD i d)) := by
  induction l generalizing a with
  | nil =>
      refine ⟨0, by simp, rfl, ?_, ?_⟩
      · intro j hj
        simp only [List.length_cons, List.length_nil] at hj
        interval_cases j
        exact le_refl _
      · intro j hj
        omega
  | cons x l ih =>
      by_cases hax : key a < key x
      · have hstep : maxByKey key a (x :: l) = maxByKey key x l := by
          simp [maxByKey, List.foldl_cons, if_pos hax]
        obtain ⟨i, hi, heq, hmax, hlt⟩ := ih x
        refine ⟨i + 1, by simpa using hi, ?_, ?_, ?_⟩
        · rw [hstep, List.getD_cons_succ]
          exact heq
        · intro j hj
          match j with
          | 0 =>
              have h0 := hmax 0 (by simp)
              simp only [List.getD_cons_zero, List.getD_cons_succ] at h0 ⊢
              exact le_trans (le_of_lt hax) h0
          | j + 1 =>
              have := hmax j (by simpa using hj)
              simpa using this
        · intro j hj
          match j with
          | 0 =>
              have h0 := hmax 0 (by simp)
              simp only [List.getD_cons_zero, List.getD_cons_succ] at h0 ⊢
              exact lt_of_lt_of_le hax h0
          | j + 1 =>
              have := hlt j (by omega)
              simpa using this
      · have hstep : maxByKey key a (x :: l) = maxByKey key a l := by
          simp [maxByKey, List.foldl_cons, if_neg hax]
        have hxa : key x ≤ key a := le_of_not_lt hax
        obtain ⟨i, hi, heq, hmax, hlt⟩ := ih a
        rcases i with _ | k
        · refine ⟨0, by simp, ?_, ?_, ?_⟩
          · rw [hstep, List.getD_cons_zero]
            simpa using heq
          · intro j hj
            match j with
            | 0 => exact le_refl _
            | 1 =>
                simp only [List.getD_cons_zero, List.getD_cons_succ]
                exact hxa
            | j + 2 =>
                have := hmax (j + 1) (by simpa using hj)
                simp only [List.getD_cons_zero, List.getD_cons_succ] at this ⊢
                exact this
          · intro j hj
            omega
        · refine ⟨k + 2, ?_, ?_, ?_, ?_⟩
          · simp only [List.length_cons] at hi ⊢
            omega
          · rw [hstep, List.getD_cons_succ, List.getD_cons_succ]
            simpa using heq
          · intro j hj
            match j with
            | 0 =>
                have h0 := hmax 0 (by simp)
                simp only [List.getD_cons_zero, List.getD_cons_succ] at h0 ⊢
                exact h0
            | 1 =>
                have h0 := hmax 0 (by simp)
                simp only [List.getD_cons_zero, List.getD_cons_succ] at h0 ⊢
                exact le_trans hxa h0
            | j + 2 =>
                have hj2 : j + 1 < (a :: l).length := by
                  simp only [List.length_cons] at hj ⊢
                  omega
                have := hmax (j + 1) hj2
                simp only [List.getD_cons_succ] at this ⊢
                exact this
          · intro j hj
            match j with
            | 0 =>
                have h0 := hlt 0 (by omega)
                simp only [List.getD_cons_zero, List.getD_cons_succ] at h0 ⊢
                exact h0
            | 1 =>
                have h0 := hlt 0 (by omega)
                simp only [List.getD_cons_zero, List.getD_cons_succ] at h0 ⊢
                exact lt_of_le_of_lt hxa h0
            | j + 2 =>
                have := hlt (j + 1) (by omega)
                simp only [List.getD_cons_succ] at this ⊢
                exact this

/-- `C9`: on a non-empty product list, `melhor` selects the simulated
result with maximum `saldo_final`; every earlier product's result is
strictly below it, so ties resolve to the earliest product in the input
order. -/
theorem melhor_spec (produtos : List Produto) (meses : ℕ)
    (ai am cdi ipca : ℝ) (hne : produtos ≠ []) :
    ∃ i, i < produtos.length ∧
      melhor (simular_produtos produtos meses ai am cdi ipca) =
        some ((simular_produtos produtos meses ai am cdi ipca).getD i ("", 0, 0)) ∧
      (∀ j, j < produtos.length →
        ((simular_produtos produtos meses ai am cdi ipca).getD j ("", 0, 0)).2.1 ≤
        ((simular_produtos produtos meses ai am cdi ipca).getD i ("", 0, 0)).2.1) ∧
      (∀ j, j < i →
        ((simular_produtos produtos meses ai am cdi ipca).getD j ("", 0, 0)).2.1 <
        ((simular_produtos produtos meses ai am cdi ipca).getD i ("", 0, 0)).2.1) := by
  have hlen : (simular_produtos produtos meses ai am cdi ipca).length =
      produtos.length := by
    simp [simular_produtos]
  obtain ⟨r0, rest, hcons⟩ : ∃ r0 rest,
      simular_produtos produtos meses ai am cdi ipca = r0 :: rest := by
    cases h : simular_produtos produtos meses ai am cdi ipca with
    | nil =>
        have h0 : produtos.length = 0 := by
          rw [← hlen, h]
          simp
        exact absurd (List.eq_nil_of_length_eq_zero h0) hne
    | cons r0 rest => exact ⟨r0, rest, rfl⟩
  obtain ⟨i, hi, heq, hmax, hlt⟩ := maxByKey_spec (fun x => x.2.1) ("", 0, 0) r0 rest
  rw [hcons] at hlen
  refine ⟨i, ?_, ?_, ?_, ?_⟩
  · rw [← hlen]
    exact hi
  · rw [hcons]
    simpa [melhor] using congrArg some heq
  · intro j hj
    rw [hcons]
    exact hmax j (by omega)
  · intro j hj
    rw [hcons]
    exact hlt j hj

/-- Witness for `C9` on a two-product list. -/
theorem melhor_spec_holds :
    ([⟨"CDB - Prefixada", "Prefixada", 0.1175, false⟩,
      ⟨"LCI - Pós CDI", "CDI", 0.94, true⟩] : List Produto) ≠ [] ∧
    ∃ i, i < ([⟨"CDB - Prefixada", "Prefixada", 0.1175, false⟩,
          ⟨"LCI - Pós CDI", "CDI", 0.94, true⟩] : List Produto).length ∧
      melhor (simular_produtos
          [⟨"CDB - Prefixada", "Prefixada", 0.1175, false⟩,
           ⟨"LCI - Pós CDI", "CDI", 0.94, true⟩] 12 1000 500 0.1375 0.045) =
        some ((simular_produtos
            [⟨"CDB - Prefixada", "Prefixada", 0.1175, false⟩,
             ⟨"LCI - Pós CDI", "CDI", 0.94, true⟩] 12 1000 500 0.1375 0.045).getD i
          ("", 0, 0)) ∧
      (∀ j, j < ([⟨"CDB - Prefixada", "Prefixada", 0.1175, false⟩,
            ⟨"LCI - Pós CDI", "CDI", 0.94, true⟩] : List Produto).length →
        ((simular_produtos
            [⟨"CDB - Prefixada", "Prefixada", 0.1175, false⟩,
             ⟨"LCI - Pós CDI", "CDI", 0.94, true⟩] 12 1000 500 0.1375 0.045).getD j
          ("", 0, 0)).2.1 ≤
        ((simular_produtos
            [⟨"CDB - Prefixada", "Prefixada", 0.1175, false⟩,
             ⟨"LCI - Pós CDI", "CDI", 0.94, true⟩] 12 1000 500 0.1375 0.045).getD i
          ("", 0, 0)).2.1) ∧
      (∀ j, j < i →
        ((simular_produtos
            [⟨"CDB - Prefixada", "Prefixada", 0.1175, false⟩,
             ⟨"LCI - Pós CDI", "CDI", 0.94, true⟩] 12 1000 500 0.1375 0.045).getD j
          ("", 0, 0)).2.1 <
        ((simular_produtos
            [⟨"CDB - Prefixada", "Prefixada", 0.1175, false⟩,
             ⟨"LCI - Pós CDI", "CDI", 0.94, true⟩] 12 1000 500 0.1375 0.045).getD i
          ("", 0, 0)).2.1) :=
  ⟨by simp,
    melhor_spec
      [⟨"CDB - Prefixada", "Prefixada", 0.1175, false⟩,
       ⟨"LCI - Pós CDI", "CDI", 0.94, true⟩] 12 1000 500 0.1375 0.045 (by simp)⟩

end Simulador
